import Mathlib

/-!
Verification of the Verba push-to-talk dictation pipeline.

This file gives a shallow embedding, in Lean 4, of the audio post-processing,
text post-processing, transcription-client, delivery and state-machine logic of
the repository, and proves (or refutes) the stated properties of the
specification against it.

Modelling conventions:
* PCM buffers are modelled as lists of 16-bit signed samples (`List Int`,
  each in [-32768, 32767]); a buffer's byte length is twice its sample count,
  matching the `Int16LE` layout the JavaScript reads and writes.
* JavaScript IEEE-754 double arithmetic is modelled exactly: every real
  comparison and rounding of the source is an equivalent exact integer
  comparison (each equivalence is documented at its definition);
  `Math.round` is round-half-up, `Math.floor` is the floor.
* Strings are ASCII; JavaScript string code-unit indices coincide with
  character indices, and text functions operate on `List Char`.
* Host capabilities (HTTP fetch, `JSON.parse`, the whisper addon result) are
  oracles passed as parameters.
-/

/-- JavaScript whitespace as used by `String.prototype.trim` and `/\s+/`
(restricted to the ASCII whitespace that can occur in the modelled data). -/
def isWsChar (c : Char) : Bool :=
  c = ' ' || c = '\t' || c = '\n' || c = '\r'

/-- Remove leading whitespace (JS `trimStart`). -/
def trimLeftL (cs : List Char) : List Char :=
  cs.dropWhile isWsChar

/-- Remove trailing whitespace (JS `trimEnd`). -/
def trimRightL (cs : List Char) : List Char :=
  (cs.reverse.dropWhile isWsChar).reverse

/-- Remove leading and trailing whitespace (JS `trim`). -/
def trimL (cs : List Char) : List Char :=
  trimRightL (trimLeftL cs)

/-- JS `trim` on strings. -/
def jsTrim (s : String) : String :=
  String.mk (trimL s.data)

/-- JS `toLowerCase` (ASCII). -/
def lowerL (cs : List Char) : List Char :=
  cs.map Char.toLower

/-- JS `split(/\s+/)` on a string with no leading or trailing whitespace:
the maximal whitespace-free runs.  (All call sites in the source split
already-trimmed strings, where this agrees with the JavaScript.) -/
def wordsL (cs : List Char) : List (List Char) :=
  (cs.splitOnP isWsChar).filter (fun w => !w.isEmpty)

/-- JS `Array.prototype.join(' ')`. -/
def joinSpaceL (ws : List (List Char)) : List Char :=
  List.intercalate [' '] ws

/-- One global pass of `text.replace(/[\[\(][^\]\)]*[\]\)]/g, '')`: at an
opening `[` or `(`, if a closing `]` or `)` occurs later, delete through the
first such closer and continue after it; otherwise the opener is kept.
Structural recursion on a fuel bounded by the list length (each step consumes
at least one character). -/
def stripBracketsGo : Nat → List Char → List Char
  | _, [] => []
  | 0, cs => cs
  | fuel + 1, c :: rest =>
    if c = '[' || c = '(' then
      match rest.findIdx? (fun d => d = ']' || d = ')') with
      | some j => stripBracketsGo fuel (rest.drop (j + 1))
      | none => c :: stripBracketsGo fuel rest
    else
      c :: stripBracketsGo fuel rest

/-- Strip bracketed/parenthesised tokens, e.g. `[BLANK_AUDIO]` (transcribe.js,
regex `[\[\(][^\]\)]*[\]\)]`). -/
def stripBracketsL (cs : List Char) : List Char :=
  stripBracketsGo cs.length cs

/-- Sentence-ending punctuation of the `/[.!?]+/` split. -/
def isSentencePunct (c : Char) : Bool :=
  c = '.' || c = '!' || c = '?'

/-- JS `split(/[.!?]+/)`: runs of `.`/`!`/`?` separate segments (a run counts
once); fuel-structural like `stripBracketsGo`. -/
def splitPunctGo : Nat → List Char → List (List Char)
  | _, [] => [[]]
  | 0, cs => [cs]
  | fuel + 1, c :: rest =>
    if isSentencePunct c then
      [] :: splitPunctGo fuel (rest.dropWhile isSentencePunct)
    else
      match splitPunctGo fuel rest with
      | [] => [[c]]
      | seg :: segs => (c :: seg) :: segs

/-- JS `split(/[.!?]+/)` on a character list. -/
def splitPunctL (cs : List Char) : List (List Char) :=
  splitPunctGo cs.length cs

/-- JS `String.prototype.lastIndexOf`: the greatest index at which `needle`
starts inside `hay`, if any. -/
def lastIndexOfL (hay needle : List Char) : Option Nat :=
  ((List.range (hay.length + 1)).filter
    (fun i => needle.isPrefixOf (hay.drop i))).getLast?

/-- JS `String.prototype.includes`: `needle` occurs contiguously in `hay`. -/
def containsSub (hay needle : List Char) : Bool :=
  (List.range (hay.length + 1)).any (fun i => needle.isPrefixOf (hay.drop i))

/- ===== Text Post-Processor (src/unnamed/part_003, transcribe.js) ===== -/

/-- The self-correction markers of `applySelfCorrections` (part_003 lines
9-16), in source order. -/
def selfCorrectionMarkers : List (List Char) :=
  [" no scratch that ".data,
   " scratch that ".data,
   " i mean ".data,
   " i meant ".data,
   " no, scratch that ".data,
   ", scratch that ".data]

/-- `applySelfCorrections` (part_003 lines 5-34): find the marker occurrence
with the greatest start position (ties broken by list order, strictly later
positions win), split the trimmed text around it, drop the last
`min (words of correction) (words of before)` words of `before` and append the
correction's words. -/
def applySelfCorrections (text : String) : String :=
  let t := trimL text.data
  if t.isEmpty then text
  else
    let lower := lowerL t
    let foundAt :=
      selfCorrectionMarkers.foldl
        (fun acc m =>
          match lastIndexOfL lower m with
          | none => acc
          | some pos =>
            match acc with
            | none => some (pos, m.length)
            | some pm => if pos > pm.1 then some (pos, m.length) else acc)
        none
    match foundAt with
    | none => text
    | some (markerStart, markerLen) =>
      let before := trimRightL (t.take markerStart)
      let correction := trimL (t.drop (markerStart + markerLen))
      if before.isEmpty || correction.isEmpty then text
      else
        let beforeWords := wordsL before
        let correctionWords := wordsL correction
        let n := min correctionWords.length beforeWords.length
        if n = 0 then String.mk (before ++ [' '] ++ correction)
        else
          let keep := beforeWords.length - n
          String.mk (joinSpaceL (beforeWords.take keep ++ correctionWords))

/-- The exact-match hallucination list (part_003 line 42). -/
def halluExact : List (List Char) :=
  ["you".data, "thank you".data, "thanks".data, "bye".data, "the".data,
   "a".data, "an".data, "um".data, "uh".data, "so".data, "and".data,
   "the end".data, ".".data, "...".data, "i".data, "it".data, "is".data,
   "oh".data]

/-- The filler-word list (part_003 line 46). -/
def fillerWords : List (List Char) :=
  ["you".data, "the".data, "a".data, "an".data, "um".data, "uh".data,
   "so".data, "and".data, "thanks".data, "thank".data, "bye".data,
   "i".data, "it".data, "is".data, "oh".data]

/-- An apostrophe character, used inside one hallucination phrase. -/
def apoChar : Char := Char.ofNat 39

/-- The known hallucination phrases (part_003 lines 50-58). -/
def halluPhrases : List (List Char) :=
  ["thank you for watching".data, "thanks for watching".data,
   "please subscribe".data, "like and subscribe".data,
   "see you next time".data, "you follow us".data, "all that is good".data,
   "but that means".data, "goodbye".data, "good night".data,
   "thank you very much".data, "thanks for listening".data,
   "see you later".data, "please like and subscribe".data,
   "don".data ++ [apoChar] ++ "t forget to subscribe".data,
   "if you enjoyed this".data, "leave a comment".data, "hit the bell".data,
   "check out our".data, "follow us on".data, "visit our website".data]

/-- `isLikelyHallucination` (part_003 lines 36-69): lowercase and trim, strip
bracket tokens, then reject on: empty result, exact filler match, short
all-filler utterance, a known hallucination phrase occurring as a substring,
or 3+ sentences averaging at most 4 words each. -/
def isLikelyHallucination (text : String) : Bool :=
  let t := lowerL (trimL text.data)
  if t.isEmpty then true
  else
    let stripped := trimL (stripBracketsL t)
    if stripped.isEmpty then true
    else if halluExact.contains stripped then true
    else
      let ws := wordsL stripped
      if ws.length ≤ 2 ∧ stripped.length ≤ 15 ∧
          ws.all (fun w => fillerWords.contains w) then true
      else if halluPhrases.any (fun p => containsSub stripped p) then true
      else
        let sentences := (splitPunctL stripped).filter
          (fun s => !(trimL s).isEmpty)
        -- `words.length / sentences.length <= 4` with a positive denominator
        -- is `words.length <= 4 * sentences.length`.
        if 3 ≤ sentences.length ∧ ws.length ≤ 4 * sentences.length then true
        else false

/-- The shared tail of both transcription backends (part_003 lines 114-116 and
207-209): splice self-corrections, then blank out likely hallucinations. -/
def postProcessTranscript (t : String) : String :=
  let out := applySelfCorrections t
  if isLikelyHallucination out then "" else out

/- ===== Audio Post-Processor (src/unnamed/part_004, record.js) ===== -/

/-- `Math.max(-32768, Math.min(32767, v))`, the Int16 store clamp. -/
def clamp16 (v : Int) : Int :=
  max (-32768) (min 32767 v)

/-- `Math.round (p / q)` for an integer numerator and positive integer
denominator: round half toward positive infinity, which is
`⌊p/q + 1/2⌋ = ⌊(2p + q) / (2q)⌋` (floor division). -/
def roundDivHalfUp (p q : Int) : Int :=
  Int.fdiv (2 * p + q) (2 * q)

/-- part_004 line 4. -/
def TARGET_SAMPLE_RATE : Nat := 16000

/-- part_004 line 68: 300 ms of padding at 16 kHz. -/
def SILENCE_PAD_SAMPLES : Nat := 4800

/-- The sum of squared samples of a PCM buffer, the accumulator of
`computeRms` (part_004 lines 49-58) before the `/32768` scaling. -/
def sumSquares (pcm : List Int) : Int :=
  pcm.foldl (fun acc s => acc + s * s) 0

/-- The comparison `computeRms pcm < MIN_SPEECH_RMS` (part_004 lines 49-58
and 63, `MIN_SPEECH_RMS = 0.005`), in exact integer form.
`computeRms = sqrt((Σ (s/32768)^2) / n)` (and 0 when `n = 0`); since both
sides of `rms < 0.005` are nonnegative and squaring is monotone, for `n > 0`
the comparison is `Σ s^2 / (2^30 n) < 25 / 10^6`, i.e.
`10^6 Σ s^2 < 25 · 2^30 · n`. -/
def rmsBelowMinSpeech (pcm : List Int) : Prop :=
  pcm.length = 0 ∨
    1000000 * sumSquares pcm < 25 * 1073741824 * (pcm.length : Int)

instance (pcm : List Int) : Decidable (rmsBelowMinSpeech pcm) := by
  unfold rmsBelowMinSpeech; infer_instance

/-- `resampleTo16kHz` (part_004 lines 26-43): identity at the target rate,
otherwise linear interpolation between neighbouring source samples.  With
`ratio = fromRate/16000` the source takes `srcIdx = i * ratio`,
`idx0 = ⌊srcIdx⌋ = i*fromRate / 16000` and `t = srcIdx - idx0 = r/16000`
where `r = i*fromRate % 16000`; the interpolated value
`s0*(1-t) + s1*t = (s0*(16000-r) + s1*r) / 16000` is rounded half-up and
clamped, and `outLength = ⌊n / ratio⌋ = n*16000 / fromRate`. -/
def resampleTo16kHz (pcm : List Int) (fromRate : Nat) : List Int :=
  if fromRate = TARGET_SAMPLE_RATE then pcm
  else
    let n := pcm.length
    let outLength := n * TARGET_SAMPLE_RATE / fromRate
    (List.range outLength).map (fun i =>
      let idx0 := i * fromRate / TARGET_SAMPLE_RATE
      let r : Nat := i * fromRate % TARGET_SAMPLE_RATE
      let idx1 := min (idx0 + 1) (n - 1)
      let s0 := pcm.getD idx0 0
      let s1 := pcm.getD idx1 0
      clamp16 (roundDivHalfUp
        (s0 * ((TARGET_SAMPLE_RATE : Int) - (r : Int)) + s1 * (r : Int))
        (TARGET_SAMPLE_RATE : Int)))

/-- `normalizeAudio` (part_004 lines 107-131): skip when empty, already loud
(peak > 16384) or silent (peak < 1); otherwise scale every sample by
`gain = min (29491 / peak) 8` and clamp.  The min picks `29491 / peak`
exactly when `29491 ≤ 8 * peak`; in that branch
`round(s * 29491 / peak)` is `roundDivHalfUp (s * 29491) peak`, and in the
other branch `round(8 * s) = 8 * s`. -/
def normalizeAudio (pcm : List Int) : List Int :=
  if pcm.length = 0 then pcm
  else
    let peak := pcm.foldl (fun acc s => max acc s.natAbs) 0
    if peak < 1 ∨ peak > 16384 then pcm
    else if 29491 ≤ 8 * peak then
      pcm.map (fun s => clamp16 (roundDivHalfUp (s * 29491) (peak : Int)))
    else
      pcm.map (fun s => clamp16 (8 * s))

/-- A sample counts as above the trimming threshold when
`|s| / 32768 > SILENCE_THRESHOLD` with `SILENCE_THRESHOLD = 0.02 = 1/50`
(part_004 lines 66, 81-82, 88-89), i.e. exactly when `32768 < 50 * |s|`. -/
def isLoudSample (s : Int) : Bool :=
  decide (32768 < 50 * s.natAbs)

/-- Index of the first sample above the silence threshold; 0 when none is
(the source loop leaves `start = 0` in that case). -/
def firstLoudIdx (pcm : List Int) : Nat :=
  match pcm.findIdx? isLoudSample with
  | some i => i
  | none => 0

/-- Index of the last sample above the silence threshold; `length - 1` when
none is (the source loop leaves `end = numSamples - 1`). -/
def lastLoudIdx (pcm : List Int) : Nat :=
  match pcm.reverse.findIdx? isLoudSample with
  | some j => pcm.length - 1 - j
  | none => pcm.length - 1

/-- `trimSilence` (part_004 lines 74-101): find the first/last
above-threshold samples, widen by `SILENCE_PAD_SAMPLES` clamped to the buffer,
and slice — unless the kept span is at least 90% of the buffer, in which case
the input is returned unchanged.  `Nat` subtraction models the source's
`Math.max(0, ...)` clamp.  The `sampleRate` parameter is unused, as in the
source. -/
def trimSilence (pcm : List Int) (sampleRate : Nat) : List Int :=
  let n := pcm.length
  if n = 0 then pcm
  else
    let start1 := firstLoudIdx pcm - SILENCE_PAD_SAMPLES
    let end1 := min (n - 1) (lastLoudIdx pcm + SILENCE_PAD_SAMPLES)
    -- `trimmedLength >= byteLength * 0.9` is `2k ≥ 0.9 * 2n`, i.e. `9n ≤ 10k`.
    if 9 * n ≤ 10 * (end1 - start1 + 1) then pcm
    else (pcm.drop start1).take (end1 - start1 + 1)

/-- `Buffer.writeUInt16LE`: two little-endian bytes.  (The source value is
always in range; out-of-range values would throw in Node.) -/
def u16le (v : Nat) : List Nat :=
  [v % 256, v / 256 % 256]

/-- `Buffer.writeUInt32LE`: four little-endian bytes, likewise used only with
in-range values. -/
def u32le (v : Nat) : List Nat :=
  [v % 256, v / 256 % 256, v / 65536 % 256, v / 16777216 % 256]

/-- ASCII bytes of a tag string (`Buffer.write`). -/
def ascL (s : String) : List Nat :=
  s.data.map Char.toNat

/-- The 44 header bytes written by `writeWavHeader` (part_004 lines 7-23), in
offset order: RIFF size `36 + dataSize`, fmt chunk size 16, format code 1,
1 channel, byte rate `sampleRate * 2`, block align 2, 16 bits per sample,
data chunk size `numSamples * 2`. -/
def wavHeaderBytes (numSamples sampleRate : Nat) : List Nat :=
  ascL "RIFF" ++ u32le (36 + numSamples * 2) ++ ascL "WAVE" ++ ascL "fmt " ++
    u32le 16 ++ u16le 1 ++ u16le 1 ++ u32le sampleRate ++
    u32le (sampleRate * 2) ++ u16le 2 ++ u16le 16 ++ ascL "data" ++
    u32le (numSamples * 2)

/-- `writeWavHeader` (part_004 lines 7-24): `Buffer.concat([header, buffer])`,
the payload passed through untouched. -/
def writeWavHeader (buffer : List Nat) (numSamples sampleRate : Nat) :
    List Nat :=
  wavHeaderBytes numSamples sampleRate ++ buffer

/-- Serialise samples as `Int16LE` bytes (two's complement), the layout the
source buffers use. -/
def pcmBytes (pcm : List Int) : List Nat :=
  pcm.foldr (fun s acc =>
    ((s % 65536).toNat % 256) :: ((s % 65536).toNat / 256) :: acc) []

/-- `writeWavFromRendererBuffer` (part_004 lines 138-164, the full-pipeline
variant): reject buffers under 3200 bytes, reject RMS below
`MIN_SPEECH_RMS`, then resample (a zero/absent rate defaults to 44100),
normalise, trim silence, and package with a WAV header at the target rate.
The model returns the written WAV file bytes instead of a temp-file path;
`none` is the source's `null` rejection. -/
def writeWavFromRendererBuffer (pcmBuffer : List Int) (sampleRate : Nat) :
    Option (List Nat) :=
  if 2 * pcmBuffer.length < 3200 then none
  else if rmsBelowMinSpeech pcmBuffer then none
  else
    let fromRate := if sampleRate = 0 then 44100 else sampleRate
    let resampled := resampleTo16kHz pcmBuffer fromRate
    let normalized := normalizeAudio resampled
    let trimmed := trimSilence normalized TARGET_SAMPLE_RATE
    some (writeWavHeader (pcmBytes trimmed) trimmed.length TARGET_SAMPLE_RATE)

/-- Little-endian decoding of four bytes. -/
def dec32 (a b c d : Nat) : Nat :=
  a + 256 * b + 65536 * c + 16777216 * d

/-- Little-endian decoding of two bytes. -/
def dec16 (a b : Nat) : Nat :=
  a + 256 * b

/-- Modelled from the spec: a reader for the standard linear-PCM RIFF/WAVE
container of §6 (the repository writes WAV files but never parses one).  It
checks every header field the spec fixes — the tags, RIFF size
`36 + dataSize`, fmt chunk size 16, format code 1, channel count 1, byte rate
`sampleRate * 2`, block align 2, bits per sample 16 — and yields the sample
rate, the sample count (`dataSize / 2`) and the data payload. -/
def parseWavHeaderSpec (bytes : List Nat) : Option (Nat × Nat × List Nat) :=
  match bytes with
  | r0 :: r1 :: r2 :: r3 :: g0 :: g1 :: g2 :: g3 ::
    w0 :: w1 :: w2 :: w3 :: m0 :: m1 :: m2 :: m3 ::
    f0 :: f1 :: f2 :: f3 :: p0 :: p1 :: c0 :: c1 ::
    s0 :: s1 :: s2 :: s3 :: b0 :: b1 :: b2 :: b3 ::
    a0 :: a1 :: e0 :: e1 :: d0 :: d1 :: d2 :: d3 ::
    z0 :: z1 :: z2 :: z3 :: rest =>
    if [r0, r1, r2, r3] = ascL "RIFF" ∧ [w0, w1, w2, w3] = ascL "WAVE" ∧
        [m0, m1, m2, m3] = ascL "fmt " ∧ [d0, d1, d2, d3] = ascL "data" ∧
        dec32 f0 f1 f2 f3 = 16 ∧ dec16 p0 p1 = 1 ∧ dec16 c0 c1 = 1 ∧
        dec16 a0 a1 = 2 ∧ dec16 e0 e1 = 16 ∧
        dec32 b0 b1 b2 b3 = 2 * dec32 s0 s1 s2 s3 ∧
        dec32 g0 g1 g2 g3 = 36 + dec32 z0 z1 z2 z3 then
      some (dec32 s0 s1 s2 s3, dec32 z0 z1 z2 z3 / 2,
        rest.take (dec32 z0 z1 z2 z3))
    else none
  | _ => none

/- ===== Transcription Client, remote backend (part_003 lines 71-119) ===== -/

/-- A minimal model of the JavaScript values a parsed response body can take
(numbers idealised as integers; the modelled control flow never inspects a
number's printed form). -/
inductive Json where
  | null
  | bool (b : Bool)
  | num (n : Int)
  | str (s : String)
  | arr (elems : List Json)
  | obj (fields : List (String × Json))

/-- JavaScript truthiness of a `Json` value. -/
def Json.truthy : Json → Bool
  | .null => false
  | .bool b => b
  | .num n => decide (n ≠ 0)
  | .str s => decide (s ≠ "")
  | .arr _ => true
  | .obj _ => true

/-- Member access `j.text` on an object (`undefined`, i.e. `none`, on
anything else, and on objects without the field). -/
def Json.textField : Json → Option Json
  | .obj fields => fields.lookup "text"
  | _ => none

/-- Lines 110-111: `const text = json && json.text` followed by
`typeof text !== 'string'`.  A truthy `json` contributes its `text` member,
which must be a string; a falsy `json` contributes itself, which passes the
`typeof` test only when it is the empty string. -/
def jsonTextString (j : Json) : Option String :=
  if j.truthy then
    match j.textField with
    | some (.str s) => some s
    | _ => none
  else
    match j with
    | .str s => some s
    | _ => none

/-- One HTTP response as the retry loop observes it: the status code, the
`retry-after` header if present, and the body text.  `JSON.parse` is a
separate oracle from body text to `Option Json` (`none` models a parse
exception). -/
structure HttpResponse where
  status : Nat
  retryAfter : Option String
  body : String

/-- `res.ok` of node-fetch: status in [200, 300). -/
def httpOk (r : HttpResponse) : Bool :=
  decide (200 ≤ r.status) && decide (r.status < 300)

/-- JS `parseInt(s, 10)`: skip leading whitespace, optional sign, then a
decimal-digit prefix; `none` models `NaN` (no digits). -/
def jsParseInt (s : String) : Option Int :=
  let cs := s.data.dropWhile isWsChar
  let signAndRest : Bool × List Char :=
    match cs with
    | '-' :: rest => (true, rest)
    | '+' :: rest => (false, rest)
    | _ => (false, cs)
  let digits := signAndRest.2.takeWhile Char.isDigit
  if digits.isEmpty then none
  else
    let n : Nat := digits.foldl (fun acc c => 10 * acc + (c.toNat - 48)) 0
    some (if signAndRest.1 then -(n : Int) else (n : Int))

/-- Line 92: `parseInt(res.headers.get('retry-after') || '', 10) ||
Math.pow(2, attempt + 1)` — the seconds slept before the next attempt.  A
missing header reads as `''`; `NaN` (unparsable) and `0` are falsy and fall
back to the exponential backoff. -/
def retryDelaySeconds (attempt : Nat) (hdr : Option String) : Int :=
  match jsParseInt (hdr.getD "") with
  | some v => if v = 0 then 2 ^ (attempt + 1) else v
  | none => 2 ^ (attempt + 1)

/-- The failure classes `transcribeAzure` can throw (lines 97-118). -/
inductive AzureFailure where
  | apiError (status : Nat) (body : String)
  | emptyResponse
  | invalidJson
  | missingTextField
  | emptyText
  | maxRetriesExceeded
deriving DecidableEq

/-- Result of the remote backend: a transcript (possibly blanked to `""` by
the hallucination filter) or a thrown failure. -/
inductive AzureOutcome where
  | ok (text : String)
  | fail (e : AzureFailure)
deriving DecidableEq

/-- Lines 97-116: handling of a response that was not retried — non-2xx
statuses throw with the body, then the body is required to be nonempty,
parsable, and to carry a string `text` field that trims to something
nonempty; the result then passes through the text post-processor. -/
def handleResponse (parseJson : String → Option Json) (res : HttpResponse) :
    AzureOutcome :=
  if ¬ httpOk res then .fail (.apiError res.status res.body)
  else if (trimL res.body.data).isEmpty then .fail .emptyResponse
  else
    match parseJson res.body with
    | none => .fail .invalidJson
    | some j =>
      match jsonTextString j with
      | none => .fail .missingTextField
      | some text =>
        let trimmed := jsTrim text
        if trimmed = "" then .fail .emptyText
        else .ok (postProcessTranscript trimmed)

/-- The retry loop of `transcribeAzure` (lines 82-118) from a given attempt
number, fuelled by the number of loop iterations left (`maxRetries = 3`, so
the loop runs attempts 0..3 and the fuel starts at 4).  Returns the list of
sleeps taken (in seconds, in order) alongside the outcome.  A 429 with
`attempt < 3` sleeps and retries; everything else is settled by
`handleResponse`.  Exhausted fuel is the source's unreachable
`Max retries exceeded` throw after the loop. -/
def transcribeAzureGo (parseJson : String → Option Json)
    (responses : Nat → HttpResponse) : Nat → Nat → List Int × AzureOutcome
  | _, 0 => ([], .fail .maxRetriesExceeded)
  | attempt, fuel + 1 =>
    let res := responses attempt
    if res.status = 429 ∧ attempt < 3 then
      let rest := transcribeAzureGo parseJson responses (attempt + 1) fuel
      (retryDelaySeconds attempt res.retryAfter :: rest.1, rest.2)
    else ([], handleResponse parseJson res)

/-- `transcribeAzure` (lines 71-119) from the first attempt, given the
response that each `fetch` of attempt `k` would observe.  (The credential
and file-size guards before the loop, lines 72-76, concern the surrounding
I/O and are not modelled.) -/
def transcribeAzure (parseJson : String → Option Json)
    (responses : Nat → HttpResponse) : List Int × AzureOutcome :=
  transcribeAzureGo parseJson responses 0 4

/- ===== Transcription Client, local backend (part_003 lines 140-210) ===== -/

/-- Lines 181-184: pick the segment container out of the whisper addon's
result: a non-array object contributes `result.transcription ||
result.segments || []`; anything else is used as-is. -/
def segsOf (result : Json) : Json :=
  match result with
  | .obj fields =>
    let tr := (fields.lookup "transcription").getD .null
    if tr.truthy then tr
    else
      let sg := (fields.lookup "segments").getD .null
      if sg.truthy then sg else .arr []
  | _ => result

/-- `seg.speech || seg.text || ''` for an object segment (line 198), with
JS string coercion of the chosen member idealised for strings (the only
shape the addon produces). -/
def segObjText (fields : List (String × Json)) : Json :=
  let sp := (fields.lookup "speech").getD .null
  if sp.truthy then sp
  else
    let tx := (fields.lookup "text").getD .null
    if tx.truthy then tx else .str ""

/-- String coercion used by `join(' ')` on the mapped segments; only string
segments occur in practice, other values are printed as JavaScript would
print numbers and booleans (idealised for integers). -/
def jsDisplay : Json → String
  | .str s => s
  | .num n => toString n
  | .bool b => if b then "true" else "false"
  | .null => "null"
  | .arr _ => ""
  | .obj _ => ""

/-- Lines 186-202: normalise the heterogeneous segment shapes to one text:
a string is taken as-is; an array maps each segment — string, `[start, end,
text]` triple (last element if a string, else the truthy-or-empty first),
object (`speech`/`text` member) or other (empty) — and joins with spaces;
any other shape leaves the text empty. -/
def textFromSegs : Json → String
  | .str s => s
  | .arr segs =>
    String.intercalate " "
      (segs.map (fun seg =>
        match seg with
        | .str s => s
        | .arr l =>
          match l.getLast? with
          | some (.str s) => s
          | _ =>
            let first := (l.head?).getD .null
            if first.truthy then jsDisplay first else ""
        | .obj fields => jsDisplay (segObjText fields)
        | _ => ""))
  | _ => ""

/-- Lines 181-209 of `transcribeLocal`, from the whisper addon's result value
(the model-path check, thread-count choice, GPU retry and the addon call
itself are environment interactions): normalise the segments to text, strip
bracket tokens and trim; an empty cleaned text returns `""`, otherwise the
shared text post-processor runs. -/
def transcribeLocalFromResult (result : Json) : String :=
  let text := textFromSegs (segsOf result)
  let cleaned := String.mk (trimL (stripBracketsL text.data))
  if cleaned = "" then ""
  else postProcessTranscript cleaned

/- ===== Delivery Stage (part_003 lines 280-344, paste.js) ===== -/

/-- The platforms the delivery code branches on. -/
inductive Platform where
  | darwin
  | win32
  | linux
deriving DecidableEq

/-- The externally visible actions of `pasteText`, in program order. -/
inductive PasteEffect where
  | setClipboard (text : String)
  | activateApp (bundleId : String)
  | sendPasteKeystroke
deriving DecidableEq

/-- part_003 line 278. -/
def VERBA_BUNDLE_ID : String := "com.mercer.verba"

/-- Line 287: `targetBundleId && typeof targetBundleId === 'string' ?
targetBundleId.trim() : null` (a non-string or empty-string target reads as
absent). -/
def effectiveBundleId (targetBundleId : Option String) : Option String :=
  match targetBundleId with
  | some s => if s = "" then none else some (jsTrim s)
  | none => none

/-- Line 288: a usable macOS paste target — present, nonempty, not the
AppleScript `missing value` sentinel, and not Verba itself. -/
def hasMacTarget (targetBundleId : Option String) : Bool :=
  match effectiveBundleId targetBundleId with
  | some b =>
    decide (b ≠ "") && decide (String.mk (lowerL b.data) ≠ "missing value")
      && decide (b ≠ VERBA_BUNDLE_ID)
  | none => false

/-- `pasteText` (part_003 lines 280-344) as its list of effects: empty text
does nothing; otherwise the clipboard is set, then — unless there is no mac
target and the platform is not Windows — macOS activates the target app and
sends Cmd+V, and Windows always sends Ctrl+V (the source comment: "On
Windows we always try to paste").  Activation/keystroke failures are logged
and swallowed in the source and do not change which actions are attempted. -/
def pasteText (platform : Platform) (text : String)
    (targetBundleId : Option String) : List PasteEffect :=
  let t := jsTrim text
  if t = "" then []
  else
    .setClipboard t ::
      (if ¬ hasMacTarget targetBundleId = true ∧ platform ≠ .win32 then []
       else if platform = .darwin then
         [.activateApp ((effectiveBundleId targetBundleId).getD ""),
          .sendPasteKeystroke]
       else if platform = .win32 then [.sendPasteKeystroke]
       else [])

/- ===== Recording State Machine (mercer-voice-tauri app.js, part_000) ===== -/

/-- The pill states (app.js line 5). -/
inductive PillState where
  | idle
  | recording
  | transcribing
  | error
deriving DecidableEq

/-- Backend commands the hotkey handlers invoke synchronously. -/
inductive PillCmd where
  | startRecording
  | stopRecording
deriving DecidableEq

/-- `onHotkeyPressed` (app.js lines 165-177): a press in any state other
than `idle` returns immediately; from `idle` the state becomes `recording`
and `start_recording` is invoked.  (The awaited error continuation is not
part of the synchronous transition.) -/
def onHotkeyPressed (s : PillState) : PillState × List PillCmd :=
  if s ≠ .idle then (s, [])
  else (.recording, [.startRecording])

/-- `onHotkeyReleased` (app.js lines 180-206): a release in any state other
than `recording` returns immediately; from `recording` the state becomes
`transcribing` and `stop_recording` is invoked. -/
def onHotkeyReleased (s : PillState) : PillState × List PillCmd :=
  if s ≠ .recording then (s, [])
  else (.transcribing, [.stopRecording])

/- ===== Claim theorems ===== -/

set_option maxRecDepth 8000

/-- C1: any raw mono 16-bit PCM buffer whose full-scale-normalised RMS is
below `MIN_SPEECH_RMS = 0.005` is rejected (`null`) by
`writeWavFromRendererBuffer`, whatever its length and source sample rate, so
no WAV output is ever produced for it. -/
theorem writeWav_rejects_quiet_buffers (pcm : List Int) (sampleRate : Nat)
    (h : rmsBelowMinSpeech pcm) :
    writeWavFromRendererBuffer pcm sampleRate = none := by
  unfold writeWavFromRendererBuffer
  by_cases hl : 2 * pcm.length < 3200
  · simp [hl]
  · simp [hl, h]

/-- Witness for C1 at a concrete quiet buffer. -/
theorem writeWav_rejects_quiet_buffers_witness :
    rmsBelowMinSpeech (List.replicate 4 (0 : Int)) ∧
      writeWavFromRendererBuffer (List.replicate 4 (0 : Int)) 48000 = none :=
  ⟨by decide, writeWav_rejects_quiet_buffers _ 48000 (by decide)⟩

/-- Accumulator form of `sumSquares` on a constant buffer. -/
theorem sumSquares_foldl_replicate (n : Nat) (x a : Int) :
    List.foldl (fun acc s => acc + s * s) a (List.replicate n x)
      = a + n * (x * x) := by
  induction n generalizing a with
  | zero => simp
  | succ m ih =>
    rw [List.replicate_succ, List.foldl_cons, ih]
    push_cast
    ring

/-- `sumSquares` of a constant buffer. -/
theorem sumSquares_replicate (n : Nat) (x : Int) :
    sumSquares (List.replicate n x) = n * (x * x) := by
  simpa [sumSquares] using sumSquares_foldl_replicate n x 0

/-- C2 counterexample: a buffer of 1600 loud samples at a 32000 Hz source
rate lasts 0.05 s — under 0.1 s at its source sample rate — yet
`writeWavFromRendererBuffer` accepts it and produces WAV output, because the
source's length gate is a fixed 3200-byte comparison, not one scaled by the
source rate.  (Byte length `2 * 1600 = 3200`; `10 * 3200 < 2 * 32000` says
the buffer is under a tenth of a second of 2-byte samples at 32000 Hz.) -/
theorem writeWav_short_buffer_accepted_counterexample :
    10 * (2 * (List.replicate 1600 (16000 : Int)).length) < 2 * 32000 ∧
      (writeWavFromRendererBuffer (List.replicate 1600 (16000 : Int))
        32000).isSome = true := by
  constructor
  · rw [List.length_replicate]
    norm_num
  · have h1 : ¬ 2 * (List.replicate 1600 (16000 : Int)).length < 3200 := by
      rw [List.length_replicate]
      norm_num
    have h2 : ¬ rmsBelowMinSpeech (List.replicate 1600 (16000 : Int)) := by
      simp only [rmsBelowMinSpeech, sumSquares_replicate,
        List.length_replicate]
      push_neg
      refine ⟨by norm_num, by norm_num⟩
    unfold writeWavFromRendererBuffer
    rw [if_neg h1, if_neg h2]
    rfl

/-- C2 amended: `writeWavFromRendererBuffer` rejects exactly on the fixed
byte-length floor — any buffer under 3200 bytes (0.1 s of 16-bit mono at the
16 kHz *target* rate) is rejected, regardless of the source sample rate. -/
theorem writeWav_rejects_short_buffers (pcm : List Int) (sampleRate : Nat)
    (h : 2 * pcm.length < 3200) :
    writeWavFromRendererBuffer pcm sampleRate = none := by
  unfold writeWavFromRendererBuffer
  simp [h]

/-- Witness for the amended C2 at a concrete short buffer. -/
theorem writeWav_rejects_short_buffers_witness :
    2 * (List.replicate 10 (0 : Int)).length < 3200 ∧
      writeWavFromRendererBuffer (List.replicate 10 (0 : Int)) 44100 = none :=
  ⟨by decide, writeWav_rejects_short_buffers _ 44100 (by decide)⟩

/-- C3: at the spec's own example input the code does not produce
`"turn right"` — the marker search keeps the occurrence with the greatest
start position, so `" scratch that "` (position 12) beats
`" no scratch that "` (position 9), the word `"no"` stays in the preceding
segment, and the splice yields `"turn turn right"`. -/
theorem applySelfCorrections_failing_example :
    applySelfCorrections "turn left no scratch that turn right"
      = "turn turn right" := by
  decide

/-- C4: the hallucination filter classifies `"you"` and
`"thanks for listening, like and subscribe"` as hallucinations (the pipeline
therefore outputs empty text for them) and passes
`"please turn off the lights in the kitchen"` through unchanged. -/
theorem hallucinationFilter_examples :
    isLikelyHallucination "you" = true ∧
      postProcessTranscript "you" = "" ∧
      isLikelyHallucination "thanks for listening, like and subscribe"
        = true ∧
      postProcessTranscript "thanks for listening, like and subscribe"
        = "" ∧
      isLikelyHallucination "please turn off the lights in the kitchen"
        = false ∧
      postProcessTranscript "please turn off the lights in the kitchen"
        = "please turn off the lights in the kitchen" := by
  refine ⟨by decide, by decide, by decide, by decide, by decide, by decide⟩

/-- C5 amended: the remote backend's retry policy.  On HTTP 429 it retries up
to 3 additional times, sleeping `retryDelaySeconds` — the `Retry-After`
header's `parseInt` value when that is a nonzero number, and otherwise (header
absent, unparsable, or zero) an exponential backoff of `2^(attempt+1)`
seconds (2 s, 4 s, 8 s); any other non-2xx response fails immediately with
the response body; a 2xx response with an empty body, unparsable JSON, or a
missing/non-string `text` field fails immediately with the corresponding
distinct error, with no retry. -/
theorem transcribeAzure_retry_policy :
    (∀ (pj : String → Option Json) (rs : Nat → HttpResponse),
        (∀ k, k ≤ 3 → (rs k).status = 429) →
        transcribeAzure pj rs =
          ([retryDelaySeconds 0 (rs 0).retryAfter,
            retryDelaySeconds 1 (rs 1).retryAfter,
            retryDelaySeconds 2 (rs 2).retryAfter],
           .fail (.apiError 429 (rs 3).body))) ∧
    (∀ attempt, retryDelaySeconds attempt none = 2 ^ (attempt + 1)) ∧
    (∀ attempt hdr, jsParseInt hdr = none →
        retryDelaySeconds attempt (some hdr) = 2 ^ (attempt + 1)) ∧
    (∀ attempt hdr v, jsParseInt hdr = some v → v ≠ 0 →
        retryDelaySeconds attempt (some hdr) = v) ∧
    (∀ (pj : String → Option Json) (rs : Nat → HttpResponse),
        (rs 0).status ≠ 429 → httpOk (rs 0) = false →
        transcribeAzure pj rs =
          ([], .fail (.apiError (rs 0).status (rs 0).body))) ∧
    (∀ (pj : String → Option Json) (rs : Nat → HttpResponse),
        httpOk (rs 0) = true → trimL (rs 0).body.data = [] →
        transcribeAzure pj rs = ([], .fail .emptyResponse)) ∧
    (∀ (pj : String → Option Json) (rs : Nat → HttpResponse),
        httpOk (rs 0) = true → trimL (rs 0).body.data ≠ [] →
        pj (rs 0).body = none →
        transcribeAzure pj rs = ([], .fail .invalidJson)) ∧
    (∀ (pj : String → Option Json) (rs : Nat → HttpResponse) (j : Json),
        httpOk (rs 0) = true → trimL (rs 0).body.data ≠ [] →
        pj (rs 0).body = some j → jsonTextString j = none →
        transcribeAzure pj rs = ([], .fail .missingTextField)) := by
  have hok429 : ∀ r : HttpResponse, httpOk r = true → r.status ≠ 429 := by
    intro r h
    simp only [httpOk, Bool.and_eq_true, decide_eq_true_eq] at h
    omega
  refine ⟨?_, ?_, ?_, ?_, ?_, ?_, ?_, ?_⟩
  · intro pj rs h
    have h0 := h 0 (by norm_num)
    have h1 := h 1 (by norm_num)
    have h2 := h 2 (by norm_num)
    have h3 := h 3 (by norm_num)
    simp [transcribeAzure, transcribeAzureGo, h0, h1, h2, h3,
      handleResponse, httpOk]
  · intro attempt
    have he : jsParseInt "" = none := by decide
    simp [retryDelaySeconds, he]
  · intro attempt hdr h
    simp [retryDelaySeconds, h]
  · intro attempt hdr v h hv
    simp [retryDelaySeconds, h, hv]
  · intro pj rs h429 hok
    simp [transcribeAzure, transcribeAzureGo, h429, handleResponse, hok]
  · intro pj rs hok hbody
    simp [transcribeAzure, transcribeAzureGo, hok429 _ hok, handleResponse,
      hok, hbody]
  · intro pj rs hok hbody hpj
    simp [transcribeAzure, transcribeAzureGo, hok429 _ hok, handleResponse,
      hok, hbody, hpj]
  · intro pj rs j hok hbody hpj hjs
    simp [transcribeAzure, transcribeAzureGo, hok429 _ hok, handleResponse,
      hok, hbody, hpj, hjs]

/-- Witness for the amended C5: with every response a bare 429, the loop
sleeps the exponential backoff 2 s, 4 s, 8 s and then fails with the final
response body. -/
theorem transcribeAzure_retry_policy_witness :
    transcribeAzure (fun _ => none)
        (fun _ => { status := 429, retryAfter := none, body := "rl" })
      = ([2, 4, 8], .fail (.apiError 429 "rl")) := by
  have h := transcribeAzure_retry_policy.1 (fun _ => none)
    (fun _ => { status := 429, retryAfter := none, body := "rl" })
    (fun k _ => rfl)
  rw [h]
  decide

/-- The response oracle of the C5 counterexample: the first attempt is rate
limited with a `Retry-After: 0` header, the second succeeds. -/
def azureCounterResponses : Nat → HttpResponse := fun k =>
  if k = 0 then { status := 429, retryAfter := some "0", body := "limited" }
  else { status := 200, retryAfter := none, body := "resp" }

/-- The `JSON.parse` oracle of the C5 counterexample. -/
def azureCounterParse : String → Option Json := fun b =>
  if b = "resp" then some (.obj [("text", .str "hello world")]) else none

/-- C5 counterexample: a present and parsable `Retry-After: 0` header is not
honoured — `parseInt` yields the falsy 0, so the code sleeps the 2 s backoff
instead of the header's 0 s before the successful retry. -/
theorem transcribeAzure_retryAfter_zero_counterexample :
    jsParseInt ((azureCounterResponses 0).retryAfter.getD "") = some 0 ∧
      transcribeAzure azureCounterParse azureCounterResponses
        = ([2], .ok "hello world") := by
  refine ⟨by decide, by decide⟩

/-- C6: a press or release signal arriving while the state machine is not in
that signal's expected source state is a no-op — the state is unchanged and
no backend command (in particular no second capture session) is issued; a
press while `transcribing` is the spec's named instance. -/
theorem hotkey_out_of_state_noop (s : PillState) :
    (s ≠ .idle → onHotkeyPressed s = (s, [])) ∧
      (s ≠ .recording → onHotkeyReleased s = (s, [])) ∧
      onHotkeyPressed .transcribing = (.transcribing, []) := by
  refine ⟨?_, ?_, by decide⟩
  · intro h
    simp [onHotkeyPressed, h]
  · intro h
    simp [onHotkeyReleased, h]

/-- Witness for C6 at the `transcribing` state. -/
theorem hotkey_out_of_state_noop_witness :
    PillState.transcribing ≠ PillState.idle ∧
      onHotkeyPressed .transcribing = (.transcribing, []) :=
  ⟨by decide, (hotkey_out_of_state_noop .transcribing).1 (by decide)⟩

/-- A contiguous slice `(l.drop a).take k` occurs inside `l`. -/
theorem drop_take_occurs_in (l : List Int) (a k : Nat) :
    (l.drop a).take k <:+: l := by
  refine ⟨l.take a, l.drop (a + k), ?_⟩
  have h1 : (l.drop a).take k ++ l.drop (a + k) = l.drop a := by
    have h2 : (l.drop a).drop k = l.drop (a + k) := by
      rw [List.drop_drop, Nat.add_comm]
    rw [← h2, List.take_append_drop]
  rw [List.append_assoc, h1, List.take_append_drop]

/-- C7: `trimSilence` always keeps at least the span from the first
above-threshold sample to the last one, widened by the
`SILENCE_PAD_SAMPLES` (300 ms at 16 kHz) pad on each side and clamped to the
buffer bounds — its result contains that padded span contiguously — and it
returns the input unchanged whenever the would-be-removed span is under 10%
of the buffer length. -/
theorem trimSilence_keeps_padded_span (pcm : List Int) (sampleRate : Nat) :
    ((pcm.drop (firstLoudIdx pcm - SILENCE_PAD_SAMPLES)).take
        (min (pcm.length - 1) (lastLoudIdx pcm + SILENCE_PAD_SAMPLES)
          - (firstLoudIdx pcm - SILENCE_PAD_SAMPLES) + 1)
      <:+: trimSilence pcm sampleRate) ∧
      (10 * (pcm.length
          - (min (pcm.length - 1) (lastLoudIdx pcm + SILENCE_PAD_SAMPLES)
            - (firstLoudIdx pcm - SILENCE_PAD_SAMPLES) + 1)) < pcm.length →
        trimSilence pcm sampleRate = pcm) := by
  constructor
  · unfold trimSilence
    by_cases h0 : pcm.length = 0
    · simp only [h0, if_pos rfl]
      exact drop_take_occurs_in _ _ _
    · simp only [h0, if_neg h0]
      by_cases hc : 9 * pcm.length ≤
          10 * (min (pcm.length - 1) (lastLoudIdx pcm + SILENCE_PAD_SAMPLES)
            - (firstLoudIdx pcm - SILENCE_PAD_SAMPLES) + 1)
      · rw [if_pos hc]
        exact drop_take_occurs_in _ _ _
      · rw [if_neg hc]
        exact ⟨[], [], by simp⟩
  · intro h
    unfold trimSilence
    by_cases h0 : pcm.length = 0
    · simp [h0]
    · have hb : min (pcm.length - 1) (lastLoudIdx pcm + SILENCE_PAD_SAMPLES)
          ≤ pcm.length - 1 := Nat.min_le_left _ _
      have hc : 9 * pcm.length ≤
          10 * (min (pcm.length - 1) (lastLoudIdx pcm + SILENCE_PAD_SAMPLES)
            - (firstLoudIdx pcm - SILENCE_PAD_SAMPLES) + 1) := by
        omega
      simp [h0, hc]

/-- Witness for C7 at a concrete buffer whose padded span is the whole
buffer (removed span 0 < 10%), so trimming is skipped. -/
theorem trimSilence_keeps_padded_span_witness :
    10 * (([0, 20000, 0] : List Int).length
        - (min (([0, 20000, 0] : List Int).length - 1)
            (lastLoudIdx [0, 20000, 0] + SILENCE_PAD_SAMPLES)
          - (firstLoudIdx [0, 20000, 0] - SILENCE_PAD_SAMPLES) + 1))
      < ([0, 20000, 0] : List Int).length ∧
      trimSilence [0, 20000, 0] 16000 = [0, 20000, 0] :=
  ⟨by decide, (trimSilence_keeps_padded_span [0, 20000, 0] 16000).2 (by decide)⟩

/-- Decoding inverts the four-byte little-endian encoding for values below
`2^32`. -/
theorem dec32_bytes (v : Nat) (hv : v < 4294967296) :
    dec32 (v % 256) (v / 256 % 256) (v / 65536 % 256) (v / 16777216 % 256)
      = v := by
  unfold dec32
  omega

/-- C8: a WAV container built by `writeWavHeader` for `N` mono 16-bit
samples at rate `R` has a 44-byte header carrying exactly the spec's field
values (checked one by one by `parseWavHeaderSpec`), followed by the
unmodified payload; re-parsing recovers `N`, `R` and the payload
byte-for-byte.  The range hypotheses are Node's `writeUInt32LE` domain. -/
theorem writeWavHeader_roundtrip (data : List Nat) (N R : Nat)
    (hlen : data.length = 2 * N) (hN : 36 + 2 * N < 4294967296)
    (hR : 2 * R < 4294967296) :
    parseWavHeaderSpec (writeWavHeader data N R) = some (R, N, data) ∧
      (writeWavHeader data N R).length = 44 + data.length := by
  have hRIFF : ascL "RIFF" = [82, 73, 70, 70] := rfl
  have hWAVE : ascL "WAVE" = [87, 65, 86, 69] := rfl
  have hfmt : ascL "fmt " = [102, 109, 116, 32] := rfl
  have hdata : ascL "data" = [100, 97, 116, 97] := rfl
  have hR1 : R < 4294967296 := by omega
  have hR2 : R * 2 < 4294967296 := by omega
  have hN1 : N * 2 < 4294967296 := by omega
  have hN2 : 36 + N * 2 < 4294967296 := by omega
  constructor
  · simp only [writeWavHeader, wavHeaderBytes, u16le, u32le, hRIFF, hWAVE,
      hfmt, hdata, List.cons_append, List.nil_append]
    simp only [parseWavHeaderSpec]
    split
    next hg =>
      rw [dec32_bytes R hR1, dec32_bytes (N * 2) hN1,
        show N * 2 / 2 = N by omega, show N * 2 = data.length by omega,
        List.take_length]
    next hg =>
      exfalso
      apply hg
      refine ⟨rfl, rfl, rfl, rfl, by decide, by decide, by decide,
        by decide, by decide, ?_, ?_⟩
      · rw [dec32_bytes (R * 2) hR2, dec32_bytes R hR1]
        omega
      · rw [dec32_bytes (36 + N * 2) hN2, dec32_bytes (N * 2) hN1]
  · simp only [writeWavHeader, wavHeaderBytes, u16le, u32le, hRIFF, hWAVE,
      hfmt, hdata, List.length_append]
    simp

/-- Witness for C8 at a concrete 3-sample payload at 16 kHz. -/
theorem writeWavHeader_roundtrip_witness :
    ([1, 2, 3, 4, 5, 6] : List Nat).length = 2 * 3 ∧
      parseWavHeaderSpec (writeWavHeader [1, 2, 3, 4, 5, 6] 3 16000)
        = some (16000, 3, [1, 2, 3, 4, 5, 6]) :=
  ⟨by decide,
    (writeWavHeader_roundtrip [1, 2, 3, 4, 5, 6] 3 16000 (by decide)
      (by decide) (by decide)).1⟩

/-- C9 counterexample: on Windows, a delivery call with no target identifier
at all still synthesizes a paste keystroke after setting the clipboard (the
source comment: "On Windows we always try to paste"), so clipboard-set is
not the only effect. -/
theorem pasteText_win32_counterexample :
    hasMacTarget none = false ∧
      pasteText .win32 "hello" none
        = [.setClipboard "hello", .sendPasteKeystroke] := by
  refine ⟨by decide, by decide⟩

/-- C9 amended: on non-Windows platforms, a delivery call with no valid,
distinct target identifier (`hasMacTarget = false`) sets the clipboard and
does nothing else — no app activation and no paste keystroke (and for
whitespace-only text not even the clipboard is touched); on Windows the
keystroke is always attempted. -/
theorem pasteText_clipboard_only (platform : Platform) (text : String)
    (target : Option String) (hT : hasMacTarget target = false)
    (hP : platform ≠ .win32) :
    pasteText platform text target
      = if jsTrim text = "" then [] else [.setClipboard (jsTrim text)] := by
  unfold pasteText
  by_cases h : jsTrim text = ""
  · simp [h]
  · simp [h, hT, hP]

/-- Witness for the amended C9: macOS, nonempty text, with Verba itself as
the (non-distinct) captured target. -/
theorem pasteText_clipboard_only_witness :
    hasMacTarget (some "com.mercer.verba") = false ∧
      pasteText .darwin "hello" (some "com.mercer.verba")
        = [.setClipboard "hello"] :=
  ⟨by decide,
    (pasteText_clipboard_only .darwin "hello" (some "com.mercer.verba")
      (by decide) (by decide)).trans (by decide)⟩

/-- C10: the backends disagree on empty transcripts at their interface — the
remote backend throws (`.fail .emptyText`) whenever the parsed response's
`text` field trims to nothing, with no retry, while the local backend
returns the empty string (an `ok` value, nothing to deliver) whenever its
cleaned transcript is empty. -/
theorem backends_disagree_on_empty :
    (∀ (pj : String → Option Json) (rs : Nat → HttpResponse) (j : Json)
        (s : String),
        httpOk (rs 0) = true → trimL (rs 0).body.data ≠ [] →
        pj (rs 0).body = some j → jsonTextString j = some s →
        jsTrim s = "" →
        transcribeAzure pj rs = ([], .fail .emptyText)) ∧
      (∀ result : Json,
        trimL (stripBracketsL (textFromSegs (segsOf result)).data) = [] →
        transcribeLocalFromResult result = "") := by
  constructor
  · intro pj rs j s hok hbody hpj hjs hs
    have h429 : (rs 0).status ≠ 429 := by
      simp only [httpOk, Bool.and_eq_true, decide_eq_true_eq] at hok
      omega
    simp [transcribeAzure, transcribeAzureGo, h429, handleResponse, hok,
      hbody, hpj, hjs, hs]
  · intro result h
    simp [transcribeLocalFromResult, h]

/-- Witness for C10: a 200 response whose JSON `text` is a single space
fails with the distinct empty-text error, while a whisper result consisting
solely of a bracket token yields the empty string from the local backend. -/
theorem backends_disagree_on_empty_witness :
    transcribeAzure
        (fun b => if b = "w" then some (.obj [("text", .str " ")]) else none)
        (fun _ => { status := 200, retryAfter := none, body := "w" })
      = ([], .fail .emptyText) ∧
      transcribeLocalFromResult (.str "[BLANK_AUDIO]") = "" :=
  ⟨backends_disagree_on_empty.1
      (fun b => if b = "w" then some (.obj [("text", .str " ")]) else none)
      (fun _ => { status := 200, retryAfter := none, body := "w" })
      (.obj [("text", .str " ")]) " " (by decide) (by decide) (by rfl)
      (by rfl) (by decide),
    backends_disagree_on_empty.2 (.str "[BLANK_AUDIO]") (by decide)⟩
